import Mathlib

/-
Verification of the Gaussian-process regression core (nispat/gp.py).

Shallow embedding conventions:
* Scalars are a generic field `R` with decidable equality (a commutative
  ring suffices for the matrix helpers and the Linear kernel); concrete
  witnesses use the rationals, or the integers where only ring operations
  occur.  The transcendental functions `np.exp` / `np.log`,
  the constants `np.pi` and `np.finfo(float).eps`, the float predicate
  `np.isfinite` and `np.sign` are fields of a `NumOps` record: the claims
  under scrutiny are about control flow and data flow of gp.py, not about
  floating-point rounding.
* Matrices are lists of row lists, mirroring the dynamically shaped numpy
  arrays of the source; helper operations (transpose, product, trace, ...)
  follow the numpy operations used by gp.py.
* The external dense linear-algebra provider (numpy.linalg.cholesky /
  numpy.linalg.solve) is part of `NumOps`: `chol` returns `none` where
  numpy raises `LinAlgError` (matrix not positive-definite); `solveM` /
  `solveV` are the matrix- and vector-right-hand-side forms of `solve`.
* Python exceptions are modelled with `Except GPError` (or an
  `Option GPError` component for procedures mutating the engine state, so
  that the partially mutated state at raise time is preserved).
* The `GPR` engine object is a `GPRState` record threaded explicitly
  through `post` / `loglik` / `dloglik` / `estimate` / `predict`.
  Attributes that may be unset (`self.alpha`, `self.covfunc`, `self.dnlZ`,
  and `self.hyp` which starts as the scalar `np.nan`) are `Option`s.
* Python object identity of covariance-function instances (the default
  `==` for classes without `__eq__`, as used by `_updatepost`) is modelled
  by an identity token `id : Nat` carried by `CovIface`.
-/

namespace Nispat

section RingOps

variable {R : Type} [CommRing R] [DecidableEq R]

/-- Dot product of two scalar lists, as `numpy.dot` on vectors. -/
def dotL (a b : List R) : R :=
  (List.zipWith (fun u v => u * v) a b).sum

/-- Transpose of a row-list matrix (rectangular usage, as in gp.py). -/
def transposeL (m : List (List R)) : List (List R) :=
  (List.range (m.headD []).length).map (fun j => m.map (fun row => row.getD j 0))

/-- Matrix product `a.dot(b)`. -/
def matMulL (a b : List (List R)) : List (List R) :=
  a.map (fun row => (transposeL b).map (fun col => dotL row col))

/-- Matrix-vector product `m.dot(v)`. -/
def matVecL (m : List (List R)) (v : List R) : List R :=
  m.map (fun row => dotL row v)

/-- Elementwise map over a matrix. -/
def matMapL (f : R → R) (m : List (List R)) : List (List R) :=
  m.map (List.map f)

/-- Elementwise sum of two matrices. -/
def matAddL (a b : List (List R)) : List (List R) :=
  List.zipWith (List.zipWith (fun u v => u + v)) a b

/-- Elementwise difference of two matrices. -/
def matSubL (a b : List (List R)) : List (List R) :=
  List.zipWith (List.zipWith (fun u v => u - v)) a b

/-- Elementwise (Hadamard) product of two matrices, numpy `*`. -/
def matHadL (a b : List (List R)) : List (List R) :=
  List.zipWith (List.zipWith (fun u v => u * v)) a b

/-- Scalar multiple of a matrix. -/
def smulL (c : R) (m : List (List R)) : List (List R) :=
  matMapL (fun a => c * a) m

/-- Identity matrix `np.eye n`. -/
def eyeL (n : Nat) : List (List R) :=
  (List.range n).map (fun i => (List.range n).map (fun j => if i = j then (1 : R) else 0))

/-- Main diagonal `np.diag` of a square matrix. -/
def diagL (m : List (List R)) : List R :=
  (List.range m.length).map (fun i => (m.getD i []).getD i 0)

/-- `np.trace`. -/
def traceL (m : List (List R)) : R :=
  (diagL m).sum

/-- Outer product `np.outer a b`. -/
def outerL (a b : List R) : List (List R) :=
  a.map (fun u => b.map (fun v => u * v))

/-- `np.sum(np.sum(m))`: total sum of the entries. -/
def sumsumL (m : List (List R)) : R :=
  (m.map (fun r => r.sum)).sum

/-- Modelled from the spec: the pairwise squared-Euclidean-distance helper
`squared_dist` imported from `utils` (a module of this repository that is
not part of the provided sources).  Given A of shape N x D and B of shape
M x D it returns the N x M matrix of squared distances between the rows of
A and the rows of B. -/
def squared_dist (a b : List (List R)) : List (List R) :=
  a.map (fun ra => b.map (fun rb => (List.zipWith (fun u v => (u - v) * (u - v)) ra rb).sum))

/-- The Python exception kinds raised or caught by gp.py. -/
inductive GPError where
  | linAlgError
  | valueError (msg : String)
  | indexError
  | attributeError
  | typeError
  deriving DecidableEq

instance {A B : Type} [DecidableEq A] [DecidableEq B] : DecidableEq (Except A B) := fun x y =>
  match x, y with
  | Except.error a, Except.error b =>
    if h : a = b then isTrue (by rw [h]) else isFalse (fun hc => h (Except.error.inj hc))
  | Except.ok a, Except.ok b =>
    if h : a = b then isTrue (by rw [h]) else isFalse (fun hc => h (Except.ok.inj hc))
  | Except.error _, Except.ok _ => isFalse (fun hc => Except.noConfusion hc)
  | Except.ok _, Except.error _ => isFalse (fun hc => Except.noConfusion hc)

/-- A numpy value that is either a 0-dimensional scalar array
(`np.asarray(0)`, returned by `CovLin.dcov`) or a matrix. -/
inductive NPArr (R : Type) where
  | scalar (c : R)
  | mat (m : List (List R))
  deriving DecidableEq

/-- The scalar/provider operations gp.py takes from numpy and scipy:
`exp`, `log`, `pi`, machine epsilon, `isfinite`, `sign`, plus the external
dense linear-algebra provider (`cholesky` returning `none` where numpy
raises `LinAlgError`, and `solve` for matrix and vector right-hand sides). -/
structure NumOps (R : Type) where
  exp : R → R
  log : R → R
  pi : R
  eps : R
  isfinite : R → Bool
  sign : R → R
  chol : List (List R) → Option (List (List R))
  solveM : List (List R) → List (List R) → List (List R)
  solveV : List (List R) → List R → List R

/-- Python indexing `l[i]` with negative-index wrap-around; `none` models
`IndexError`. -/
def pyIdx (l : List R) (i : Int) : Option R :=
  let j : Int := if i < 0 then i + l.length else i
  if 0 ≤ j ∧ j < (l.length : Int) then some (l.getD j.toNat 0) else none

/-- Python column extraction `x[:, i]` with negative-index wrap-around;
`none` models `IndexError`. -/
def pyCol (m : List (List R)) (i : Int) : Option (List R) :=
  let opts := m.map (fun row => pyIdx row i)
  if opts.all Option.isSome then some (opts.map (fun o => o.getD 0)) else none

/-- `CovLin.cov` (gp.py lines 50-59).  `fc` is the mutable `first_call`
flag (initialised to `False` by `__init__`); the returned flag is its
value after the call.  When the flag is unset and `theta` is a non-`None`
array, the source evaluates `theta[0]`: on an empty `theta` this raises
`IndexError`; on a non-empty `theta` it prints the "unnecessary
hyperparameter" warning and sets the flag.  Afterwards `z` defaults to `x`
and the kernel `x.dot(z.T)` is returned. -/
def covLin_cov (fc : Bool) (theta : Option (List R)) (x : List (List R))
    (z : Option (List (List R))) : Except GPError (List (List R) × Bool) :=
  match (if fc then Except.ok fc else
          match theta with
          | none => Except.ok fc
          | some [] => Except.error GPError.indexError
          | some (_ :: _) => Except.ok true) with
  | Except.error e => Except.error e
  | Except.ok fc1 =>
    let z1 := z.getD x
    Except.ok (matMulL x (transposeL z1), fc1)

/-- `CovLin.dcov` (gp.py lines 61-65): index 0 returns the scalar array
`np.asarray(0)`, every other index raises
`ValueError("Invalid covariance function parameter")`. -/
def covLin_dcov (theta : Option (List R)) (x : List (List R)) (i : Int) :
    Except GPError (NPArr R) :=
  match theta, x with
  | _, _ =>
    if i = 0 then Except.ok (NPArr.scalar 0)
    else Except.error (GPError.valueError "Invalid covariance function parameter")

end RingOps

section FieldOps

variable {R : Type} [Field R] [DecidableEq R]

/-- `CovSqExp.cov` (gp.py lines 78-87): `ell = exp(theta[0])`,
`sf2 = exp(2*theta[1])` (raising `IndexError` when `theta` is too short,
`TypeError` when it is `None`), `z` defaults to `x`, and
`K = sf2 * exp(-squared_dist(x/ell, z/ell)/2)`. -/
def covSqExp_cov (ops : NumOps R) (theta : Option (List R)) (x : List (List R))
    (z : Option (List (List R))) : Except GPError (List (List R)) :=
  match theta with
  | none => Except.error GPError.typeError
  | some [] => Except.error GPError.indexError
  | some [_] => Except.error GPError.indexError
  | some (t0 :: t1 :: _) =>
    let ell := ops.exp t0
    let sf2 := ops.exp (2 * t1)
    let z1 := z.getD x
    let dist := squared_dist (matMapL (fun a => a / ell) x) (matMapL (fun a => a / ell) z1)
    Except.ok (matMapL (fun r => sf2 * ops.exp (-r / 2)) dist)

/-- `CovSqExp.dcov` (gp.py lines 89-102): recomputes `ell`, `sf2` and the
squared-distance matrix, then returns `sf2*exp(-R/2)*R` for index 0,
`2*sf2*exp(-R/2)` for index 1, and raises
`ValueError("Invalid covariance function parameter")` otherwise. -/
def covSqExp_dcov (ops : NumOps R) (theta : Option (List R)) (x : List (List R))
    (i : Int) : Except GPError (NPArr R) :=
  match theta with
  | none => Except.error GPError.typeError
  | some [] => Except.error GPError.indexError
  | some [_] => Except.error GPError.indexError
  | some (t0 :: t1 :: _) =>
    let ell := ops.exp t0
    let sf2 := ops.exp (2 * t1)
    let dist := squared_dist (matMapL (fun a => a / ell) x) (matMapL (fun a => a / ell) x)
    if i = 0 then
      Except.ok (NPArr.mat (matHadL (matMapL (fun r => sf2 * ops.exp (-r / 2)) dist) dist))
    else if i = 1 then
      Except.ok (NPArr.mat (matMapL (fun r => 2 * sf2 * ops.exp (-r / 2)) dist))
    else Except.error (GPError.valueError "Invalid covariance function parameter")

/-- `CovSqExpARD.cov` (gp.py lines 118-128), with `D` the input
dimensionality fixed at construction: `ell = exp(theta[0:D])`,
`sf2 = exp(2*theta[D])` (an `IndexError` when `theta` has at most `D`
entries), inputs are scaled per column by `1/ell` via `x.dot(diag(1/ell))`
and the kernel is `sf2*exp(-squared_dist(..)/2)`. -/
def covSqExpARD_cov (ops : NumOps R) (D : Nat) (theta : Option (List R))
    (x : List (List R)) (z : Option (List (List R))) : Except GPError (List (List R)) :=
  match theta with
  | none => Except.error GPError.typeError
  | some t =>
    if t.length ≤ D then Except.error GPError.indexError
    else
      let ell := (t.take D).map ops.exp
      let sf2 := ops.exp (2 * t.getD D 0)
      let z1 := z.getD x
      let scale := fun (m : List (List R)) =>
        m.map (fun row => List.zipWith (fun v e => v * (1 / e)) row ell)
      let dist := squared_dist (scale x) (scale z1)
      Except.ok (matMapL (fun r => sf2 * ops.exp (-r / 2)) dist)

/-- `CovSqExpARD.dcov` (gp.py lines 130-139): recomputes `K = cov(theta,x)`;
an index `i < D` (including Python negative indices, which wrap around)
returns `K * squared_dist(x[:,i]/ell[i], x[:,i]/ell[i])`, index `D`
returns `2*K`, and any larger index raises
`ValueError("Invalid covariance function parameter")`. -/
def covSqExpARD_dcov (ops : NumOps R) (D : Nat) (theta : Option (List R))
    (x : List (List R)) (i : Int) : Except GPError (NPArr R) :=
  match covSqExpARD_cov ops D theta x none with
  | Except.error e => Except.error e
  | Except.ok K =>
    let t := theta.getD []
    let ell := (t.take D).map ops.exp
    if i < (D : Int) then
      match pyCol x i with
      | none => Except.error GPError.indexError
      | some c =>
        match pyIdx ell i with
        | none => Except.error GPError.indexError
        | some e =>
          let u := c.map (fun a => a / e)
          let um := u.map (fun a => [a])
          Except.ok (NPArr.mat (matHadL K (squared_dist um um)))
    else if i = (D : Int) then Except.ok (NPArr.mat (matMapL (fun a => 2 * a) K))
    else Except.error (GPError.valueError "Invalid covariance function parameter")

/-- The shape GPR sees of a covariance-function object: an identity token
(Python object identity, the meaning of `==` on classes without `__eq__`)
plus the `cov` and `dcov` methods. -/
structure CovIface (R : Type) where
  id : Nat
  cov : Option (List R) → List (List R) → Option (List (List R)) → Except GPError (List (List R))
  dcov : List R → List (List R) → Int → Except GPError (NPArr R)

/-- The attributes of a `GPR` instance (gp.py lines 185-195 and the ones
assigned later).  `hyp = none` models the initial scalar `np.nan`;
`alpha`, `covfunc`, `dnlZ` and `optimizer` model attributes that do not
exist before first assignment (`hasattr` / `AttributeError`). -/
structure GPRState (R : Type) where
  hyp : Option (List R) := none
  nlZ : Option R := none
  tol : R
  n_iter : Nat := 1000
  verbose : Bool := false
  N : Nat := 0
  D : Nat := 0
  K : List (List R) := []
  L : List (List R) := []
  alpha : Option (List R) := none
  covfunc : Option (CovIface R) := none
  dnlZ : Option (List R) := none
  optimizer : Option String := none

/-- The external scipy optimizers as `estimate` uses them
(`full_output=1`): each receives the engine-state-threading objective
(and, for conjugate gradients, gradient) closure, the starting vector,
the `gtol`/`maxiter` knobs, and yields the final state together with
`(out[0], out[1]) = (xopt, fopt)`, or propagates an exception escaping
the objective. -/
structure OptOps (R : Type) where
  fmin_cg : (GPRState R → List R → GPRState R × Except GPError R) → List R →
    (GPRState R → List R → GPRState R × Except GPError (List R)) → R → Nat →
    GPRState R → GPRState R × Except GPError (List R × R)
  fmin_powell : (GPRState R → List R → GPRState R × Except GPError R) → List R →
    GPRState R → GPRState R × Except GPError (List R × R)

/-- Truth value of `np.asarray(a == b).all()` for two 1-D numpy arrays:
elementwise equality when the shapes agree, numpy broadcasting when one
array has length 1 (its single entry is compared against every entry of
the other), and the scalar `False` that old numpy returns for
non-broadcastable shapes. -/
def npEqAll (a b : List R) : Bool :=
  if a.length = b.length then decide (a = b)
  else if a.length = 1 then b.all (fun v => decide (v = a.getD 0 0))
  else if b.length = 1 then a.all (fun v => decide (v = b.getD 0 0))
  else false

/-- `GPR._updatepost` (gp.py lines 197-204): returns `false` (posterior
still fresh) when `(hyp == self.hyp).all()` holds, `self.alpha` exists and
the covariance-function argument is `==` (object identity) to the stored
one; otherwise `true` (recompute).  The initial `self.hyp = np.nan` never
compares equal to a non-empty hyp vector; this embedding also returns
`true` for an empty hyp against the initial state, a configuration that
is unreachable because `alpha` exists only after `post` has stored a hyp
vector. -/
def updatepost (st : GPRState R) (hyp : List R) (covfunc : CovIface R) : Bool :=
  let hypeq := (st.hyp.map (fun sh => npEqAll hyp sh)).getD false
  let coveq := (st.covfunc.map (fun c => decide (covfunc.id = c.id))).getD false
  if hypeq && st.alpha.isSome && coveq then false else true

/-- `GPR.post` (gp.py lines 206-229).  `self.N`, `self.D` are assigned
from `X.shape` before the cache check; a fresh cache returns immediately.
Otherwise `sn2 = exp(2*hyp[0])` (an `IndexError` on an empty hyp),
`theta = hyp[1:]`, then `self.K = covfunc.cov(theta, X)`,
`self.L = cholesky(K + sn2*I)` (a `LinAlgError` when the matrix is not
positive-definite, raised after `self.K` was already assigned), and
`self.alpha = solve(L.T, solve(L, y))`, finally storing `hyp` and
`covfunc`.  The second component is the exception the call raises, if
any; the first is the (possibly partially) mutated state. -/
def post (ops : NumOps R) (cf : CovIface R) (hyp : List R) (X : List (List R))
    (y : List R) (st : GPRState R) : GPRState R × Option GPError :=
  let st1 := { st with N := X.length, D := (X.headD []).length }
  if updatepost st1 hyp cf then
    match hyp with
    | [] => (st1, some GPError.indexError)
    | h0 :: theta =>
      let sn2 := ops.exp (2 * h0)
      match cf.cov (some theta) X none with
      | Except.error e => (st1, some e)
      | Except.ok K =>
        let st2 := { st1 with K := K }
        match ops.chol (matAddL K (smulL sn2 (eyeL st1.N))) with
        | none => (st2, some GPError.linAlgError)
        | some L =>
          let alpha := ops.solveV (transposeL L) (ops.solveV L y)
          ({ st2 with
              L := L
              alpha := some alpha
              hyp := some (h0 :: theta)
              covfunc := some cf }, none)
  else (st1, none)

/-- The straight-line tail of `GPR.loglik` (gp.py lines 243-253):
`nlZ = 0.5*y.T.dot(alpha) + sum(log(diag(L))) + 0.5*N*log(2*pi)`,
replaced by the sentinel `1/eps` when not finite, stored in `self.nlZ`
and returned. -/
def loglikBody (ops : NumOps R) (y : List R) (st : GPRState R) :
    GPRState R × Except GPError R :=
  let nlZ0 := (1 / 2 : R) * dotL y (st.alpha.getD []) + ((diagL st.L).map ops.log).sum +
    (1 / 2 : R) * (st.N : R) * ops.log (2 * ops.pi)
  let nlZ := if ops.isfinite nlZ0 then nlZ0 else 1 / ops.eps
  ({ st with nlZ := some nlZ }, Except.ok nlZ)

/-- `GPR.loglik` (gp.py lines 231-253).  When the cache is stale, `post`
runs inside `try: ... except (ValueError, LinAlgError)`: a caught failure
stores and returns the sentinel `self.nlZ = 1/np.finfo(float).eps`; any
other exception propagates.  Then the marginal-likelihood formula of
`loglikBody` runs on the stored posterior. -/
def loglik (ops : NumOps R) (cf : CovIface R) (hyp : List R) (X : List (List R))
    (y : List R) (st : GPRState R) : GPRState R × Except GPError R :=
  if updatepost st hyp cf then
    match post ops cf hyp X y st with
    | (st1, some GPError.linAlgError) =>
      ({ st1 with nlZ := some (1 / ops.eps) }, Except.ok (1 / ops.eps))
    | (st1, some (GPError.valueError _)) =>
      ({ st1 with nlZ := some (1 / ops.eps) }, Except.ok (1 / ops.eps))
    | (st1, some e) => (st1, Except.error e)
    | (st1, none) => loglikBody ops y st1
  else loglikBody ops y st

/-- The `except` branch of `GPR.dloglik` (gp.py lines 266-269): a caught
posterior failure returns `np.sign(self.dnlZ)/np.finfo(float).eps` (an
`AttributeError` if no gradient was ever stored) without updating
`self.dnlZ`. -/
def dloglikRescue (ops : NumOps R) (st : GPRState R) :
    GPRState R × Except GPError (List R) :=
  match st.dnlZ with
  | none => (st, Except.error GPError.attributeError)
  | some prev => (st, Except.ok (prev.map (fun c => ops.sign c / ops.eps)))

/-- The covariance-parameter loop of `GPR.dloglik` (gp.py lines 282-285):
for each `par`, `dK = covfunc.dcov(theta, X, i=par)` and
`dnlZ[par+1] = -0.5*np.sum(np.sum(Q*dK.T))`; a `dcov` exception aborts
the loop with the partially filled gradient vector. -/
def dloglikLoop (cf : CovIface R) (theta : List R) (X : List (List R))
    (Q : List (List R)) : List Nat → List R → List R × Option GPError
  | [], acc => (acc, none)
  | par :: rest, acc =>
    match cf.dcov theta X (par : Int) with
    | Except.error e => (acc, some e)
    | Except.ok dK =>
      let s := match dK with
        | NPArr.scalar c => (Q.map (fun row => (row.map (fun u => u * c)).sum)).sum
        | NPArr.mat m => sumsumL (matHadL Q (transposeL m))
      dloglikLoop cf theta X Q rest (acc.set (par + 1) (-(1 / 2 : R) * s))

/-- The straight-line tail of `GPR.dloglik` (gp.py lines 271-296):
`Q = outer(alpha, alpha) - solve(L.T, solve(L, eye(N)))`,
`dnlZ[0] = -sn2*trace(Q)`, the `dcov` loop, then every non-finite
component is replaced by `sign(component)/eps`; the result is stored in
`self.dnlZ` and returned (stored partially filled if `dcov` raised). -/
def dloglikBody (ops : NumOps R) (cf : CovIface R) (sn2 : R) (theta : List R)
    (X : List (List R)) (st : GPRState R) : GPRState R × Except GPError (List R) :=
  let a := st.alpha.getD []
  let Q := matSubL (outerL a a) (ops.solveM (transposeL st.L) (ops.solveM st.L (eyeL st.N)))
  let init := (List.replicate (theta.length + 1) (0 : R)).set 0 (-sn2 * traceL Q)
  match dloglikLoop cf theta X Q (List.range theta.length) init with
  | (d, some e) => ({ st with dnlZ := some d }, Except.error e)
  | (d, none) =>
    let d1 := d.map (fun c => if ops.isfinite c then c else ops.sign c / ops.eps)
    ({ st with dnlZ := some d1 }, Except.ok d1)

/-- `GPR.dloglik` (gp.py lines 255-296).  `sn2 = exp(2*hyp[0])` and
`theta = hyp[1:]` are computed first (an `IndexError` on an empty hyp);
when the cache is stale, `post` runs inside
`try: ... except (ValueError, LinAlgError)` whose handler is
`dloglikRescue`; then the gradient formula of `dloglikBody` runs. -/
def dloglik (ops : NumOps R) (cf : CovIface R) (hyp : List R) (X : List (List R))
    (y : List R) (st : GPRState R) : GPRState R × Except GPError (List R) :=
  match hyp with
  | [] => (st, Except.error GPError.indexError)
  | h0 :: theta =>
    let sn2 := ops.exp (2 * h0)
    if updatepost st hyp cf then
      match post ops cf hyp X y st with
      | (st1, some GPError.linAlgError) => dloglikRescue ops st1
      | (st1, some (GPError.valueError _)) => dloglikRescue ops st1
      | (st1, some e) => (st1, Except.error e)
      | (st1, none) => dloglikBody ops cf sn2 theta X st1
    else dloglikBody ops cf sn2 theta X st

/-- Python `str.lower()` as used by `estimate` (ASCII lower-casing of
the optimizer name). -/
def pyLower (s : String) : String :=
  String.mk (s.data.map Char.toLower)

/-- `GPR.estimate` (gp.py lines 299-317): dispatch on
`optimizer.lower()`, delegating to `scipy.optimize.fmin_cg` with
`self.loglik` / `self.dloglik` and the `gtol = self.tol`,
`maxiter = self.n_iter` knobs, or to `scipy.optimize.fmin_powell` with
`self.loglik` only; any other kind raises
`ValueError("unknown optimizer")`.  On return, `self.hyp = out[0]`,
`self.nlZ = out[1]` and `self.optimizer = optimizer` are stored and the
optimized hyp vector is returned. -/
def estimate (ops : NumOps R) (optops : OptOps R) (cf : CovIface R) (hyp0 : List R)
    (X : List (List R)) (y : List R) (optimizer : String) (st : GPRState R) :
    GPRState R × Except GPError (List R) :=
  if pyLower optimizer = "cg" then
    match optops.fmin_cg (fun s h => loglik ops cf h X y s) hyp0
        (fun s h => dloglik ops cf h X y s) st.tol st.n_iter st with
    | (st2, Except.error e) => (st2, Except.error e)
    | (st2, Except.ok (xopt, fopt)) =>
      ({ st2 with hyp := some xopt, nlZ := some fopt, optimizer := some optimizer },
        Except.ok xopt)
  else if pyLower optimizer = "powell" then
    match optops.fmin_powell (fun s h => loglik ops cf h X y s) hyp0 st with
    | (st2, Except.error e) => (st2, Except.error e)
    | (st2, Except.ok (xopt, fopt)) =>
      ({ st2 with hyp := some xopt, nlZ := some fopt, optimizer := some optimizer },
        Except.ok xopt)
  else (st, Except.error (GPError.valueError "unknown optimizer"))

/-- `GPR.predict` (gp.py lines 319-338): the very first expression reads
`self.covfunc` (an `AttributeError` on an engine that never stored a
covariance function); a stale cache triggers `post` with the stored
covariance function (exceptions propagate, there is no `try` here); then
`sn2 = exp(2*hyp[0])`, `theta = hyp[1:]`,
`Ks = covfunc.cov(theta, Xs, X)`, `kss = covfunc.cov(theta, Xs)`, the
predictive mean `Ks.dot(alpha)`, and the matrix-shaped predictive
variance `kss - v.T.dot(v) + sn2` (numpy adds the scalar `sn2` to every
entry) with `v = solve(L, Ks.T)`. -/
def predict (ops : NumOps R) (hyp : List R) (X : List (List R)) (y : List R)
    (Xs : List (List R)) (st : GPRState R) :
    GPRState R × Except GPError (List R × List (List R)) :=
  match st.covfunc with
  | none => (st, Except.error GPError.attributeError)
  | some cf =>
    let (st1, err) := if updatepost st hyp cf then post ops cf hyp X y st else (st, none)
    match err with
    | some e => (st1, Except.error e)
    | none =>
      match hyp with
      | [] => (st1, Except.error GPError.indexError)
      | h0 :: theta =>
        let sn2 := ops.exp (2 * h0)
        match cf.cov (some theta) Xs (some X) with
        | Except.error e => (st1, Except.error e)
        | Except.ok Ks =>
          match cf.cov (some theta) Xs none with
          | Except.error e => (st1, Except.error e)
          | Except.ok kss =>
            let a := st1.alpha.getD []
            let ymu := matVecL Ks a
            let v := ops.solveM st1.L (transposeL Ks)
            let ys2 := matMapL (fun c => c + sn2)
              (matSubL kss (matMulL (transposeL v) v))
            (st1, Except.ok (ymu, ys2))

/-- A concrete rational numeric/provider instance whose Cholesky step
always succeeds (it returns its argument), used by concrete witnesses.
The transcendental fields are arbitrary computable stand-ins: witnesses
only need concrete values, never analytic facts about them. -/
def opsOK : NumOps ℚ where
  exp := fun t => 1 + t * t
  log := fun t => t - 1
  pi := 3
  eps := 1 / 4503599627370496
  isfinite := fun _ => true
  sign := fun t => if 0 < t then 1 else if t < 0 then -1 else 0
  chol := fun m => some m
  solveM := fun _ b => b
  solveV := fun _ v => v

/-- Like `opsOK` but the Cholesky factorization always fails, modelling a
matrix that is not positive-definite. -/
def opsFail : NumOps ℚ :=
  { opsOK with chol := fun _ => none }

/-- Like `opsOK` but every value counts as non-finite, driving the
finiteness guards. -/
def opsInf : NumOps ℚ :=
  { opsOK with isfinite := fun _ => false }

/-- A concrete covariance-function instance over the rationals (linear
kernel on `x`, zero-scalar derivative), with identity token 7. -/
def cfQ : CovIface ℚ where
  id := 7
  cov := fun _ x _ => Except.ok (matMulL x (transposeL x))
  dcov := fun _ _ _ => Except.ok (NPArr.scalar 0)

/-- A freshly constructed engine, `GPR()` with default configuration. -/
def st0 : GPRState ℚ where
  tol := 1 / 1000

/-- An engine holding a valid posterior cache for hyp `[1]` and the
covariance object `cfQ`. -/
def stFresh : GPRState ℚ where
  hyp := some [1]
  tol := 1 / 1000
  N := 1
  D := 1
  K := [[1]]
  L := [[1]]
  alpha := some [2]
  covfunc := some cfQ

/-- Concrete optimizer stand-ins for witnesses: each returns the starting
vector as optimum together with a recognizable objective value. -/
def optopsQ : OptOps ℚ where
  fmin_cg := fun _ x0 _ _ _ s => (s, Except.ok (x0, 42))
  fmin_powell := fun _ x0 s => (s, Except.ok (x0, 7))

/-- The state produced by `post opsOK cfQ [1, 2] [[1], [0]] [1, 1] st0`,
with the kernel matrix `K = X.dot(X.T) = [[1, 0], [0, 0]]` and the
stand-in Cholesky factor `K + exp(2)*I = [[6, 0], [0, 5]]` spelled as the
expressions `post` builds (rational arithmetic does not reduce inside the
kernel, so the fields are kept in unevaluated form); the stand-in solves
return `y` itself, so `alpha = [1, 1]`. -/
def stPosted : GPRState ℚ :=
  { st0 with
      N := 2
      D := 1
      K := matMulL [[1], [0]] (transposeL [[1], [0]])
      L := matAddL (matMulL [[1], [0]] (transposeL [[1], [0]]))
        (smulL (opsOK.exp (2 * 1)) (eyeL 2))
      alpha := some [1, 1]
      hyp := some [1, 2]
      covfunc := some cfQ }

/-- numpy array equality of a vector with itself is all-`True`. -/
theorem npEqAll_self (a : List R) : npEqAll a a = true := by
  unfold npEqAll
  rw [if_pos rfl]
  simp

/-- `_updatepost` ignores the `self.N` / `self.D` attributes, so the
assignment at the top of `post` does not change its verdict. -/
theorem updatepost_setND (st : GPRState R) (n d : Nat) (hyp : List R) (cf : CovIface R) :
    updatepost { st with N := n, D := d } hyp cf = updatepost st hyp cf := rfl

omit [Field R] [DecidableEq R] in
/-- Re-assigning `N` and `D` is idempotent on the state. -/
theorem setND_idem (st : GPRState R) (n d : Nat) :
    { ({ st with N := n, D := d }) with N := n, D := d } = { st with N := n, D := d } := rfl

/-- Characterization of a fresh cache: `_updatepost` answers "no
recomputation" exactly when the passed hyp is numpy-`==`-equal to the
stored one, a posterior `alpha` exists, and the covariance object is
identical to the stored one. -/
theorem updatepost_false_iff (st : GPRState R) (hyp : List R) (cf : CovIface R) :
    updatepost st hyp cf = false ↔
      (∃ sh, st.hyp = some sh ∧ npEqAll hyp sh = true) ∧ st.alpha.isSome = true ∧
        ∃ c, st.covfunc = some c ∧ cf.id = c.id := by
  unfold updatepost
  cases hsh : st.hyp with
  | none => simp
  | some sh =>
    cases hc : st.covfunc with
    | none => simp
    | some c =>
      dsimp only [Option.map, Option.getD]
      have hiff : ∀ (b : Bool), ((if b = true then false else true) = false) ↔ b = true := by
        intro b
        cases b <;> simp
      rw [hiff]
      simp only [Bool.and_eq_true, decide_eq_true_eq]
      constructor
      · rintro ⟨⟨he, ha⟩, hid⟩
        exact ⟨⟨sh, rfl, he⟩, ha, c, rfl, hid⟩
      · rintro ⟨⟨sh1, hsh1, he⟩, ha, c1, hc1, hid⟩
        injection hsh1 with h1
        subst h1
        injection hc1 with h2
        subst h2
        exact ⟨⟨he, ha⟩, hid⟩

/-- After a `post` call that returns without raising, a second `post`
with the same arguments is a no-op (the "hyperparameters have not
changed" early return), and a covariance function is stored. -/
theorem post_none_inv (ops : NumOps R) (cf : CovIface R) (hyp : List R)
    (X : List (List R)) (y : List R) (st st1 : GPRState R)
    (hpost : post ops cf hyp X y st = (st1, none)) :
    post ops cf hyp X y st1 = (st1, none) ∧ ∃ c, st1.covfunc = some c := by
  unfold post at hpost ⊢
  by_cases hu : updatepost { st with N := X.length, D := (X.headD []).length } hyp cf = true
  · rw [if_pos hu] at hpost
    cases hyp with
    | nil => simp at hpost
    | cons h0 theta =>
      dsimp only at hpost ⊢
      cases hcov : cf.cov (some theta) X none with
      | error e =>
        rw [hcov] at hpost
        simp at hpost
      | ok K =>
        rw [hcov] at hpost
        dsimp only at hpost
        cases hchol : ops.chol (matAddL K (smulL (ops.exp (2 * h0)) (eyeL X.length))) with
        | none =>
          rw [hchol] at hpost
          simp at hpost
        | some L =>
          rw [hchol] at hpost
          dsimp only at hpost
          injection hpost with h1 h2
          subst h1
          refine ⟨?_, cf, rfl⟩
          have hfresh : updatepost
              { st with
                  N := X.length
                  D := (X.headD []).length
                  K := K
                  L := L
                  alpha := some (ops.solveV (transposeL L) (ops.solveV L y))
                  hyp := some (h0 :: theta)
                  covfunc := some cf } (h0 :: theta) cf = false := by
            unfold updatepost
            simp [npEqAll_self]
          simp only [hfresh]
          simp [hcov, hchol]
  · rw [if_neg hu] at hpost
    injection hpost with h1 h2
    subst h1
    have hu2 : updatepost { st with N := X.length, D := (X.headD []).length } hyp cf = false :=
      Bool.not_eq_true _ |>.mp hu
    constructor
    · simp only [setND_idem]
      rw [if_neg]
      rw [hu2]
      simp
    · rcases (updatepost_false_iff _ _ _).mp hu2 with ⟨_, _, c, hc, _⟩
      exact ⟨c, hc⟩

/-- Claim C1: whenever the posterior computation performed by `loglik`
succeeds (in particular the Cholesky factorization of `K + sn2*I`
succeeds), `loglik` stores and returns
`nlZ = 0.5*y^T*alpha + sum(log(diag(L))) + 0.5*N*log(2*pi)`, where `L` is
the Cholesky factor and `alpha` the solve vector stored by `post` for
that hyp/covfunc (the finiteness guard on the result, whose failing case
is the subject of claim C2, passes). -/
theorem loglik_success_formula (ops : NumOps R) (cf : CovIface R) (hyp : List R)
    (X : List (List R)) (y : List R) (st st1 : GPRState R) (a : List R) (nlZ0 : R)
    (hu : updatepost st hyp cf = true)
    (hpost : post ops cf hyp X y st = (st1, none))
    (ha : st1.alpha = some a)
    (hn : nlZ0 = (1 / 2 : R) * dotL y a + ((diagL st1.L).map ops.log).sum +
      (1 / 2 : R) * (st1.N : R) * ops.log (2 * ops.pi))
    (hfin : ops.isfinite nlZ0 = true) :
    loglik ops cf hyp X y st = ({ st1 with nlZ := some nlZ0 }, Except.ok nlZ0) := by
  unfold loglik
  rw [if_pos hu, hpost]
  dsimp only
  unfold loglikBody
  rw [ha]
  dsimp only [Option.getD]
  rw [← hn]
  rw [if_pos hfin]

/-- Witness for C1 at concrete rational inputs: `X = [[1], [0]]`,
`y = [1, 1]`, hyp `[1, 2]`, linear kernel, stand-in providers; `loglik`
returns exactly the claimed formula over the posterior stored by `post`
(numerically, `0.5*2 + (log 6 + log 5) + 0.5*2*log 6 = 15` for the
stand-in `log t = t - 1`). -/
theorem loglik_success_formula_witness :
    (loglik opsOK cfQ [1, 2] [[1], [0]] [(1 : ℚ), 1] st0).2 =
      Except.ok ((1 / 2 : ℚ) * dotL [(1 : ℚ), 1] [1, 1] +
        ((diagL stPosted.L).map opsOK.log).sum +
        (1 / 2 : ℚ) * (stPosted.N : ℚ) * opsOK.log (2 * opsOK.pi)) := by
  have h := loglik_success_formula opsOK cfQ [1, 2] [[1], [0]] [(1 : ℚ), 1] st0 stPosted
    [1, 1] ((1 / 2 : ℚ) * dotL [(1 : ℚ), 1] [1, 1] + ((diagL stPosted.L).map opsOK.log).sum +
      (1 / 2 : ℚ) * (stPosted.N : ℚ) * opsOK.log (2 * opsOK.pi))
    (by decide) rfl rfl rfl rfl
  rw [h]

/-- Claim C2: when the posterior computation inside `loglik` fails (the
Cholesky step raises `LinAlgError`), or when the computed `nlZ` fails
the finiteness check (on either the recompute path or the fresh-cache
path), `loglik` does not raise and instead stores and returns the large
finite sentinel `1/machine-epsilon`. -/
theorem loglik_failure_sentinel (ops : NumOps R) (cf : CovIface R) (hyp : List R)
    (X : List (List R)) (y : List R) (st st1 : GPRState R) (a : List R) (nlZ0 : R) :
    (updatepost st hyp cf = true →
      post ops cf hyp X y st = (st1, some GPError.linAlgError) →
      loglik ops cf hyp X y st =
        ({ st1 with nlZ := some (1 / ops.eps) }, Except.ok (1 / ops.eps)))
    ∧ (updatepost st hyp cf = true → post ops cf hyp X y st = (st1, none) →
        st1.alpha = some a →
        nlZ0 = (1 / 2 : R) * dotL y a + ((diagL st1.L).map ops.log).sum +
          (1 / 2 : R) * (st1.N : R) * ops.log (2 * ops.pi) →
        ops.isfinite nlZ0 = false →
        loglik ops cf hyp X y st =
          ({ st1 with nlZ := some (1 / ops.eps) }, Except.ok (1 / ops.eps)))
    ∧ (updatepost st hyp cf = false → st.alpha = some a →
        nlZ0 = (1 / 2 : R) * dotL y a + ((diagL st.L).map ops.log).sum +
          (1 / 2 : R) * (st.N : R) * ops.log (2 * ops.pi) →
        ops.isfinite nlZ0 = false →
        loglik ops cf hyp X y st =
          ({ st with nlZ := some (1 / ops.eps) }, Except.ok (1 / ops.eps))) := by
  refine ⟨?_, ?_, ?_⟩
  · intro hu hpost
    unfold loglik
    rw [if_pos hu, hpost]
  · intro hu hpost ha hn hfin
    unfold loglik
    rw [if_pos hu, hpost]
    dsimp only
    unfold loglikBody
    rw [ha]
    dsimp only [Option.getD]
    rw [← hn]
    rw [if_neg (by simp [hfin])]
  · intro hu ha hn hfin
    unfold loglik
    rw [if_neg (by simp [hu])]
    unfold loglikBody
    rw [ha]
    dsimp only [Option.getD]
    rw [← hn]
    rw [if_neg (by simp [hfin])]

/-- Witness for C2: with a failing Cholesky provider, `loglik` returns
`1/eps = 4503599627370496`; with a provider whose finiteness check always
fails, the same sentinel comes back on the success path. -/
theorem loglik_failure_sentinel_witness :
    (loglik opsFail cfQ [1] [[1]] [(1 : ℚ)] st0).2 = Except.ok (1 / opsFail.eps)
    ∧ (loglik opsInf cfQ [1, 2] [[1], [0]] [(1 : ℚ), 1] st0).2 =
        Except.ok (1 / opsInf.eps) := by
  constructor
  · have h := (loglik_failure_sentinel opsFail cfQ [1] [[1]] [(1 : ℚ)] st0
      { st0 with N := 1, D := 1, K := matMulL [[1]] (transposeL [[1]]) } [] 0).1
      (by decide) rfl
    rw [h]
  · have h := (loglik_failure_sentinel opsInf cfQ [1, 2] [[1], [0]] [(1 : ℚ), 1] st0 stPosted
      [1, 1] ((1 / 2 : ℚ) * dotL [(1 : ℚ), 1] [1, 1] + ((diagL stPosted.L).map opsInf.log).sum +
        (1 / 2 : ℚ) * (stPosted.N : ℚ) * opsInf.log (2 * opsInf.pi))).2.1
      (by decide) rfl rfl rfl rfl
    rw [h]

/-- Claim C5: when `post` is called directly and the Cholesky
factorization of `K + sn2*I` fails, the `LinAlgError` propagates to the
caller uncaught (second component `some linAlgError`), with no conversion
to a sentinel; only `self.N`, `self.D` and `self.K` have been mutated. -/
theorem post_chol_error_propagates (ops : NumOps R) (cf : CovIface R) (hyp : List R)
    (X : List (List R)) (y : List R) (st : GPRState R) (h0 : R) (theta : List R)
    (K : List (List R))
    (hu : updatepost st hyp cf = true)
    (hh : hyp = h0 :: theta)
    (hK : cf.cov (some theta) X none = Except.ok K)
    (hchol : ops.chol (matAddL K (smulL (ops.exp (2 * h0)) (eyeL X.length))) = none) :
    post ops cf hyp X y st =
      ({ st with N := X.length, D := (X.headD []).length, K := K },
        some GPError.linAlgError) := by
  subst hh
  unfold post
  dsimp only
  rw [if_pos (show updatepost
    { st with N := X.length, D := (X.headD []).length } (h0 :: theta) cf = true from hu)]
  rw [hK]
  dsimp only
  rw [hchol]

/-- Witness for C5: a failing Cholesky provider makes `post` surface
`LinAlgError` with the partially mutated state. -/
theorem post_chol_error_propagates_witness :
    post opsFail cfQ [1] [[1]] [(1 : ℚ)] st0 =
      ({ st0 with N := 1, D := 1, K := matMulL [[1]] (transposeL [[1]]) },
        some GPError.linAlgError) := by
  exact post_chol_error_propagates opsFail cfQ [1] [[1]] [(1 : ℚ)] st0 1 []
    (matMulL [[1]] (transposeL [[1]])) (by decide) rfl rfl rfl

/-- Claim C6: when the posterior computation inside `dloglik` fails with
a caught error (`LinAlgError` or `ValueError`), `dloglik` does not
propagate it and instead returns the vector
`sign(previous dnlZ)/machine-epsilon`, reusing per component the sign of
the last stored gradient. -/
theorem dloglik_failure_sentinel (ops : NumOps R) (cf : CovIface R) (hyp : List R)
    (X : List (List R)) (y : List R) (st st1 : GPRState R) (h0 : R) (theta prev : List R)
    (e : GPError)
    (hh : hyp = h0 :: theta)
    (hu : updatepost st hyp cf = true)
    (hpost : post ops cf hyp X y st = (st1, some e))
    (he : e = GPError.linAlgError ∨ ∃ m, e = GPError.valueError m)
    (hprev : st1.dnlZ = some prev) :
    dloglik ops cf hyp X y st =
      (st1, Except.ok (prev.map (fun c => ops.sign c / ops.eps))) := by
  subst hh
  unfold dloglik
  dsimp only
  rw [if_pos hu, hpost]
  rcases he with rfl | ⟨m, rfl⟩
  · dsimp only
    unfold dloglikRescue
    rw [hprev]
  · dsimp only
    unfold dloglikRescue
    rw [hprev]

/-- Witness for C6: with the failing Cholesky provider and a previously
stored gradient `[3, -4]`, `dloglik` returns `[1/eps, -1/eps]`. -/
theorem dloglik_failure_sentinel_witness :
    (dloglik opsFail cfQ [1] [[1]] [(1 : ℚ)] { st0 with dnlZ := some [3, -4] }).2 =
      Except.ok ([(3 : ℚ), -4].map (fun c => opsFail.sign c / opsFail.eps)) := by
  have h := dloglik_failure_sentinel opsFail cfQ [1] [[1]] [(1 : ℚ)]
    { st0 with dnlZ := some [3, -4] }
    { st0 with N := 1, D := 1, K := matMulL [[1]] (transposeL [[1]]), dnlZ := some [3, -4] }
    1 [] [3, -4] GPError.linAlgError rfl (by decide) rfl (Or.inl rfl) rfl
  rw [h]

/-- Claim C3: on an engine with a stored covariance function and a fresh
posterior for `(hyp, covfunc)`, `predict(hyp, X, y, Xs)` returns the mean
`Ks.dot(alpha)` and, as a full matrix-shaped object (not only its
diagonal), the variance `kss - V.T.dot(V) + sn2` with
`Ks = cov(theta, Xs, X)`, `kss = cov(theta, Xs)`, `V = solve(L, Ks.T)`
(the provider's triangular solve, i.e. `L⁻¹·Ksᵀ`) and `sn2 = exp(2*hyp[0])`
added to every entry by numpy broadcasting. -/
theorem predict_posterior_formula (ops : NumOps R) (hyp : List R) (X : List (List R))
    (y : List R) (Xs : List (List R)) (st : GPRState R) (cf : CovIface R)
    (h0 : R) (theta a : List R) (Ks kss : List (List R))
    (hcf : st.covfunc = some cf)
    (hu : updatepost st hyp cf = false)
    (ha : st.alpha = some a)
    (hh : hyp = h0 :: theta)
    (hKs : cf.cov (some theta) Xs (some X) = Except.ok Ks)
    (hkss : cf.cov (some theta) Xs none = Except.ok kss) :
    predict ops hyp X y Xs st =
      (st, Except.ok (matVecL Ks a,
        matMapL (fun c => c + ops.exp (2 * h0))
          (matSubL kss (matMulL (transposeL (ops.solveM st.L (transposeL Ks)))
            (ops.solveM st.L (transposeL Ks)))))) := by
  subst hh
  unfold predict
  rw [hcf]
  dsimp only
  rw [if_neg (by simp [hu])]
  dsimp only
  rw [hKs]
  dsimp only
  rw [hkss]
  dsimp only
  rw [ha]
  rfl

/-- Witness for C3: a one-point training set with a cached posterior,
one test point; `predict` returns exactly the claimed mean/variance
expressions. -/
theorem predict_posterior_formula_witness :
    (predict opsOK [1] [[1]] [(1 : ℚ)] [[2]] stFresh).2 =
      Except.ok (matVecL (matMulL [[2]] (transposeL [[2]])) [2],
        matMapL (fun c => c + opsOK.exp (2 * 1))
          (matSubL (matMulL [[2]] (transposeL [[2]]))
            (matMulL
              (transposeL (opsOK.solveM stFresh.L (transposeL (matMulL [[2]] (transposeL [[2]])))))
              (opsOK.solveM stFresh.L (transposeL (matMulL [[2]] (transposeL [[2]]))))))) := by
  have h := predict_posterior_formula opsOK [1] [[1]] [(1 : ℚ)] [[2]] stFresh cfQ 1 [] [2]
    (matMulL [[2]] (transposeL [[2]])) (matMulL [[2]] (transposeL [[2]]))
    rfl (by decide) rfl rfl rfl rfl
  rw [h]

/-- Claim C4 counterexample: the claimed "valid iff the passed hyp is
element-wise equal to the stored hyp" fails, because numpy `==`
broadcasts a length-1 hyp against a longer stored hyp: with stored hyp
`[1, 1]`, cached `alpha` and the same covariance object, a call passing
`[1]` is treated as cache-fresh even though `[1]` is not the stored
vector. -/
theorem updatepost_broadcast_cex :
    updatepost { stFresh with hyp := some [1, 1] } [1] cfQ = false
    ∧ some [(1 : ℚ)] ≠ ({ stFresh with hyp := some [(1 : ℚ), 1] }).hyp := by
  constructor
  · decide
  · decide

/-- Claim C4 (amended): the cache is treated as valid exactly when the
passed hyp compares numpy-`==`-equal to the stored hyp (element-wise for
equal lengths, with length-1 broadcasting otherwise), a posterior `alpha`
exists and the covariance object is identical to the stored one; a second
`post` with identical arguments after a non-raising `post` is a no-op on
the whole state (in particular `K`, `L`, `alpha` are unchanged); and a
stale verdict makes `post` recompute and store fresh `K`, `L`, `alpha`. -/
theorem cache_validity_amended (ops : NumOps R) (cf : CovIface R) (hyp : List R)
    (X : List (List R)) (y : List R) (st st1 : GPRState R) (h0 : R) (theta : List R)
    (K L : List (List R)) :
    (updatepost st hyp cf = false ↔
      (∃ sh, st.hyp = some sh ∧ npEqAll hyp sh = true) ∧ st.alpha.isSome = true ∧
        ∃ c, st.covfunc = some c ∧ cf.id = c.id)
    ∧ (post ops cf hyp X y st = (st1, none) → post ops cf hyp X y st1 = (st1, none))
    ∧ (updatepost st hyp cf = true → hyp = h0 :: theta →
        cf.cov (some theta) X none = Except.ok K →
        ops.chol (matAddL K (smulL (ops.exp (2 * h0)) (eyeL X.length))) = some L →
        post ops cf hyp X y st =
          ({ st with
              N := X.length
              D := (X.headD []).length
              K := K
              L := L
              alpha := some (ops.solveV (transposeL L) (ops.solveV L y))
              hyp := some (h0 :: theta)
              covfunc := some cf }, none)) := by
  refine ⟨updatepost_false_iff st hyp cf,
    fun h => (post_none_inv ops cf hyp X y st st1 h).1, ?_⟩
  intro hu hh hK hchol
  subst hh
  unfold post
  dsimp only
  rw [if_pos (show updatepost
    { st with N := X.length, D := (X.headD []).length } (h0 :: theta) cf = true from hu)]
  rw [hK]
  dsimp only
  rw [hchol]

/-- Witness for C4: after `post` has run once, running it again with the
same hyp vector and the same covariance object leaves the state
untouched. -/
theorem cache_validity_amended_witness :
    post opsOK cfQ [1, 2] [[1], [0]] [(1 : ℚ), 1] stPosted = (stPosted, none) := by
  exact (cache_validity_amended opsOK cfQ [1, 2] [[1], [0]] [(1 : ℚ), 1] st0 stPosted
    1 [2] [] []).2.1 rfl

/-- Claim C7 counterexample: the Linear variant has parameterCount 0, so
index 0 lies outside `[0, parameterCount)`, yet `CovLin.dcov(theta, X, 0)`
succeeds with the scalar zero array instead of failing; moreover the ARD
variant accepts the out-of-range index `-1` (Python negative indexing)
instead of failing. -/
theorem covLin_dcov_zero_cex :
    covLin_dcov (R := ℤ) none [[1]] 0 = Except.ok (NPArr.scalar 0)
    ∧ ∃ dK, covSqExpARD_dcov opsOK 2 (some [0, 0, 0]) [[1, 1]] (-1) = Except.ok dK := by
  exact ⟨by decide, _, rfl⟩

omit [DecidableEq R] in
/-- Claim C7 (amended): for nonnegative indices, `dcov` fails with
`ValueError("Invalid covariance function parameter")` exactly beyond each
variant's accepted branches: Linear accepts only index 0 (returning the
scalar zero array, despite parameterCount = 0) and fails for every index
`≥ 1` — in particular `dcov(None, X, 1)` fails; SquaredExponential (with
its two parameters supplied) fails for every index `≥ 2`; ARD (with its
`D+1` parameters supplied) fails for every index `> D`. -/
theorem dcov_invalid_index_amended (ops : NumOps R) (x : List (List R)) (i : Int)
    (theta : Option (List R)) (t0 t1 : R) (rest t : List R) (D : Nat) :
    (1 ≤ i → covLin_dcov theta x i =
      Except.error (GPError.valueError "Invalid covariance function parameter"))
    ∧ covLin_dcov theta x 0 = Except.ok (NPArr.scalar 0)
    ∧ (2 ≤ i → covSqExp_dcov ops (some (t0 :: t1 :: rest)) x i =
        Except.error (GPError.valueError "Invalid covariance function parameter"))
    ∧ (D < t.length → (D : Int) < i → covSqExpARD_dcov ops D (some t) x i =
        Except.error (GPError.valueError "Invalid covariance function parameter")) := by
  refine ⟨?_, ?_, ?_, ?_⟩
  · intro h1
    unfold covLin_dcov
    rw [if_neg (by omega)]
  · unfold covLin_dcov
    rw [if_pos rfl]
  · intro h2
    unfold covSqExp_dcov
    dsimp only
    rw [if_neg (by omega), if_neg (by omega)]
  · intro hD hi
    unfold covSqExpARD_dcov covSqExpARD_cov
    dsimp only
    rw [if_neg (by omega)]
    dsimp only
    rw [if_neg (by omega), if_neg (by omega)]

/-- Witness for C7 (amended), at concrete inputs: Linear at index 1 (the
scenario named by the spec), SquaredExponential at index 5, ARD with
`D = 1` at index 3 all fail with the invalid-parameter `ValueError`. -/
theorem dcov_invalid_index_amended_witness :
    covLin_dcov (R := ℚ) none [[1]] 1 =
      Except.error (GPError.valueError "Invalid covariance function parameter")
    ∧ covSqExp_dcov opsOK (some [0, 0]) [[1]] 5 =
        Except.error (GPError.valueError "Invalid covariance function parameter")
    ∧ covSqExpARD_dcov opsOK 1 (some [0, 0]) [[1]] 3 =
        Except.error (GPError.valueError "Invalid covariance function parameter") := by
  refine ⟨?_, ?_, ?_⟩
  · exact (dcov_invalid_index_amended opsOK [[1]] 1 none 0 0 [] [] 0).1 (by omega)
  · exact (dcov_invalid_index_amended opsOK [[1]] 5 none 0 0 [] [] 0).2.2.1 (by omega)
  · exact (dcov_invalid_index_amended opsOK [[1]] 3 none 0 0 [] [0, 0] 1).2.2.2
      (by decide) (by omega)

/-- Claim C8 (code bug): `CovLin.cov` with an empty parameter vector —
exactly what `GPR.post` passes as `theta = hyp[1:]` for the documented
length-1 hyp of the Linear kernel — raises `IndexError` while evaluating
`theta[0]` in the warning guard, instead of returning `X.dot(Z.T)`; with
`theta = None` the same call returns `X.dot(X.T)` as the claim states. -/
theorem covLin_cov_empty_theta_bug :
    covLin_cov false (some ([] : List ℤ)) [[1], [2], [3]] none =
      Except.error GPError.indexError
    ∧ covLin_cov false none [[(1 : ℤ)], [2], [3]] none =
        Except.ok ([[1, 2, 3], [2, 4, 6], [3, 6, 9]], false) := by
  constructor
  · decide
  · decide

/-- Claim C9: `estimate` dispatches on the lower-cased optimizer kind:
"cg" delegates to `fmin_cg` with the `loglik` objective, the `dloglik`
gradient and the `gtol`/`maxiter` knobs, "powell" delegates to
`fmin_powell` with the objective only; both store `hyp = out[0]`,
`nlZ = out[1]` and the optimizer name and return the optimized hyp
vector; any other kind fails immediately with
`ValueError("unknown optimizer")`. -/
theorem estimate_dispatch (ops : NumOps R) (optops : OptOps R) (cf : CovIface R)
    (hyp0 : List R) (X : List (List R)) (y : List R) (optimizer : String)
    (st st2 : GPRState R) (xopt : List R) (fopt : R) :
    (pyLower optimizer = "cg" →
      optops.fmin_cg (fun s h => loglik ops cf h X y s) hyp0
          (fun s h => dloglik ops cf h X y s) st.tol st.n_iter st =
        (st2, Except.ok (xopt, fopt)) →
      estimate ops optops cf hyp0 X y optimizer st =
        ({ st2 with hyp := some xopt, nlZ := some fopt, optimizer := some optimizer },
          Except.ok xopt))
    ∧ (pyLower optimizer = "powell" →
        optops.fmin_powell (fun s h => loglik ops cf h X y s) hyp0 st =
          (st2, Except.ok (xopt, fopt)) →
        estimate ops optops cf hyp0 X y optimizer st =
          ({ st2 with hyp := some xopt, nlZ := some fopt, optimizer := some optimizer },
            Except.ok xopt))
    ∧ (¬ pyLower optimizer = "cg" → ¬ pyLower optimizer = "powell" →
        estimate ops optops cf hyp0 X y optimizer st =
          (st, Except.error (GPError.valueError "unknown optimizer"))) := by
  refine ⟨?_, ?_, ?_⟩
  · intro heq hfm
    unfold estimate
    rw [if_pos heq, hfm]
  · intro heq hfm
    unfold estimate
    rw [if_neg (by rw [heq]; decide), if_pos heq, hfm]
  · intro h1 h2
    unfold estimate
    rw [if_neg h1, if_neg h2]

/-- Witness for C9: "CG" (upper case) drives the conjugate-gradient
stand-in and stores its result; "mcmc" is rejected with the
unknown-optimizer `ValueError`. -/
theorem estimate_dispatch_witness :
    estimate opsOK optopsQ cfQ [1] [[1]] [(1 : ℚ)] "CG" st0 =
      ({ st0 with hyp := some [1], nlZ := some 42, optimizer := some "CG" },
        Except.ok [1])
    ∧ estimate opsOK optopsQ cfQ [1] [[1]] [(1 : ℚ)] "mcmc" st0 =
        (st0, Except.error (GPError.valueError "unknown optimizer")) := by
  constructor
  · exact (estimate_dispatch opsOK optopsQ cfQ [1] [[1]] [(1 : ℚ)] "CG" st0 st0
      [1] 42).1 (by decide) rfl
  · exact (estimate_dispatch opsOK optopsQ cfQ [1] [[1]] [(1 : ℚ)] "mcmc" st0 st0
      [] 0).2.2 (by decide) (by decide)

/-- Claim C10: `predict` reads the engine's stored covariance function,
so on an engine that never stored one (no prior `post`-family call) it
fails with the missing-attribute error instead of returning a
prediction; and after any `post` call that returns without raising, a
covariance function is stored, so that failure branch is unreachable. -/
theorem predict_requires_stored_covfunc (ops : NumOps R) (cf : CovIface R)
    (hyp : List R) (X : List (List R)) (y : List R) (Xs : List (List R))
    (st st1 : GPRState R) :
    (st.covfunc = none →
      predict ops hyp X y Xs st = (st, Except.error GPError.attributeError))
    ∧ (post ops cf hyp X y st = (st1, none) → ∃ c, st1.covfunc = some c) := by
  constructor
  · intro hcf
    unfold predict
    rw [hcf]
  · intro hpost
    exact (post_none_inv ops cf hyp X y st st1 hpost).2

/-- Witness for C10: `predict` on a freshly constructed engine fails with
the missing-attribute error. -/
theorem predict_requires_stored_covfunc_witness :
    predict opsOK [1] [[1]] [(1 : ℚ)] [[1]] st0 =
      (st0, Except.error GPError.attributeError) := by
  exact (predict_requires_stored_covfunc opsOK cfQ [1] [[1]] [(1 : ℚ)] [[1]]
    st0 st0).1 rfl

end FieldOps

end Nispat
